import Mathlib

/-!
# Verification of the Urban Air Quality Monitoring ETL pipeline

Shallow embedding of the decision logic of `transform.py`, `load.py` and
`etl_analysis.py` (the transform stage's derived fields and row filtering,
the loader's batching and retry control flow, and the analyzer's
groupby/mean/idxmax KPI selection), together with proofs and refutations of
the specification claims.

Modelling conventions:
* Pollutant concentrations are rationals (`ℚ`).  A cell of a pandas column is
  an `Option ℚ`: `some q` is a numeric value, `none` is a missing value
  (pandas `NaN`).  IEEE `NaN` semantics as exercised by this code are
  modelled exactly: arithmetic involving `NaN` yields `NaN`
  (`nanMul`/`nanAdd`), and every ordered comparison against `NaN` is false
  (`nanLe`/`nanGt`).  (When a pollutant column of the real DataFrame contains
  *only* nulls, pandas stores Python `None` rather than `NaN` and the same
  expressions raise `TypeError`; that behaviour is even further from the
  specified one and is recorded in prose where it matters.)
* File discovery and JSON/CSV I/O are outside the embedding; the transform
  model starts from the parsed per-city hourly structures, exactly the data
  `transform_pipeline` has after `json.load`.
-/

namespace AirQuality

/-- Multiplication of a possibly-missing pandas cell by an integer weight:
`NaN * k = NaN`. -/
def nanMul (v : Option ℚ) (k : ℚ) : Option ℚ :=
  v.map (fun a => a * k)

/-- Addition of possibly-missing values: any `NaN` operand makes the sum `NaN`. -/
def nanAdd : Option ℚ → Option ℚ → Option ℚ
  | some a, some b => some (a + b)
  | _, _ => none

/-- `v <= c` as Python evaluates it on a float cell: false when `v` is `NaN`. -/
def nanLe (v : Option ℚ) (c : ℚ) : Bool :=
  match v with
  | some a => a ≤ c
  | none => false

/-- `v > c` as Python evaluates it on a float cell: false when `v` is `NaN`. -/
def nanGt (v : Option ℚ) (c : ℚ) : Bool :=
  match v with
  | some a => c < a
  | none => false

/-- `aqi_pm25_category` from `transform.py` lines 15–25, applied cell-wise to
the `pm2_5` column by `df["pm2_5"].apply(aqi_pm25_category)`.  The chained
`if pm25 <= 50 ... elif ... else` is embedded branch for branch; a `NaN`
argument fails every `<=` test and falls through to the `else`.  This
embedding is faithful for the cells of a float64 column (numbers and
`NaN`); when the `pm2_5` column is entirely null its cells are Python
`None` and the real comparison `None <= 50` raises `TypeError` instead —
that aborting run is modelled by `transform_pipeline_run` below, which
only reaches this function on float/`NaN` columns. -/
def aqi_pm25_category (pm25 : Option ℚ) : String :=
  if nanLe pm25 50 then "Good"
  else if nanLe pm25 100 then "Moderate"
  else if nanLe pm25 200 then "Unhealthy"
  else if nanLe pm25 300 then "Very Unhealthy"
  else "Hazardous"

/-- One row of the table built by `transform_pipeline` before the derived
columns are added: city, raw timestamp string, and the seven pollutant cells
(every record dict assigns all seven keys, so the DataFrame always has all
seven columns). -/
structure Record where
  city : String
  time : String
  pm10 : Option ℚ
  pm2_5 : Option ℚ
  carbon_monoxide : Option ℚ
  nitrogen_dioxide : Option ℚ
  sulphur_dioxide : Option ℚ
  ozone : Option ℚ
  uv_index : Option ℚ
  deriving Repr, DecidableEq

/-- `compute_severity` from `transform.py` lines 29–37.  The row passed by
`df.apply(compute_severity, axis=1)` always contains all seven pollutant
keys, so `row.get(key, 0)` returns the cell itself — the `0` default never
fires — and a missing cell surfaces as `NaN`, which propagates through the
products and sums.  This embedding is faithful for cells of float64
columns (numbers and `NaN`); a cell of an entirely-null column is Python
`None` and the real product `None * k` raises `TypeError` instead — that
aborting run is modelled by `transform_pipeline_run` below, which only
reaches this function on float/`NaN` columns. -/
def compute_severity (row : Record) : Option ℚ :=
  nanAdd (nanMul row.pm2_5 5) (nanAdd (nanMul row.pm10 3)
    (nanAdd (nanMul row.nitrogen_dioxide 4) (nanAdd (nanMul row.sulphur_dioxide 4)
      (nanAdd (nanMul row.carbon_monoxide 2) (nanMul row.ozone 3)))))

/-- `risk_classification` from `transform.py` lines 41–47, applied cell-wise
to the `Pollution_Severity` column (whose cells may be `NaN`). -/
def risk_classification (severity : Option ℚ) : String :=
  if nanGt severity 400 then "High Risk"
  else if nanGt severity 200 then "Moderate Risk"
  else "Low Risk"

/-- The `hourly` object of one raw JSON file, as `transform_pipeline` sees it
after `json.load`: the `time` array of timestamp strings and, for each of the
seven pollutants, either an array of numeric-or-null entries or no array at
all (`none`, the case `hourly_data.get(pollutant, [])` defaults away). -/
structure RawHourly where
  time : List String
  pm10 : Option (List (Option ℚ))
  pm2_5 : Option (List (Option ℚ))
  carbon_monoxide : Option (List (Option ℚ))
  nitrogen_dioxide : Option (List (Option ℚ))
  sulphur_dioxide : Option (List (Option ℚ))
  ozone : Option (List (Option ℚ))
  uv_index : Option (List (Option ℚ))
  deriving Repr

/-- `hourly_data.get(pollutant, [])` (transform.py line 72): an absent
pollutant array is replaced by the empty list. -/
def getArr (vals : Option (List (Option ℚ))) : List (Option ℚ) :=
  vals.getD []

/-- `pd.to_numeric(values[i]) if i < len(values) else None`
(transform.py line 73): guarded positional lookup; an index past the end of
the array yields a null, and a null entry stays null (`pd.to_numeric` maps a
null to a null). -/
def idxVal (values : List (Option ℚ)) (i : ℕ) : Option ℚ :=
  if h : i < values.length then values.get ⟨i, h⟩ else none

/-- The record dict built for timestamp index `i` (transform.py lines 68–75):
the city, the i-th timestamp, and the guarded i-th entry of each of the seven
pollutant arrays. -/
def mkRecord (city t : String) (i : ℕ) (h : RawHourly) : Record where
  city := city
  time := t
  pm10 := idxVal (getArr h.pm10) i
  pm2_5 := idxVal (getArr h.pm2_5) i
  carbon_monoxide := idxVal (getArr h.carbon_monoxide) i
  nitrogen_dioxide := idxVal (getArr h.nitrogen_dioxide) i
  sulphur_dioxide := idxVal (getArr h.sulphur_dioxide) i
  ozone := idxVal (getArr h.ozone) i
  uv_index := idxVal (getArr h.uv_index) i

/-- `for i, t in enumerate(times): ...` (transform.py lines 67–75): one
record per entry of the `time` array. -/
def buildRecords (city : String) (h : RawHourly) : List Record :=
  h.time.enum.map (fun p => mkRecord city p.2 p.1 h)

/-- The condition under which
`df.dropna(subset=pollutant_cols, how="all")` (transform.py line 82)
drops a row: every one of the seven pollutant cells is missing. -/
def allSevenNull (r : Record) : Bool :=
  r.pm10.isNone && r.pm2_5.isNone && r.carbon_monoxide.isNone &&
    r.nitrogen_dioxide.isNone && r.sulphur_dioxide.isNone &&
    r.ozone.isNone && r.uv_index.isNone

/-- `df.dropna(subset=pollutant_cols, how="all")`: keep exactly the rows in
which at least one of the seven pollutant cells is present. -/
def dropAllNull (records : List Record) : List Record :=
  records.filter (fun r => !(allSevenNull r))

/-- Hour-of-day of an ISO-8601 timestamp string `YYYY-MM-DDTHH:MM`, the
composition `pd.to_datetime(t)` (line 68) followed by `.dt.hour` (line 88)
for the well-formed timestamps the weather API returns: the two digits at
positions 11 and 12. -/
def hourOf (s : String) : ℕ :=
  match s.toList.drop 11 with
  | d1 :: d2 :: _ => 10 * (d1.toNat - 48) + (d2.toNat - 48)
  | _ => 0

/-- One row of the staged table: the record plus the four derived columns
`AQI_Category`, `Pollution_Severity`, `Risk_Level`, `hour`
(transform.py lines 85–88). -/
structure StagedRow where
  record : Record
  AQI_Category : String
  Pollution_Severity : Option ℚ
  Risk_Level : String
  hour : ℕ
  deriving Repr, DecidableEq

/-- The feature-engineering block (transform.py lines 85–88) applied to one
retained row. -/
def stage (r : Record) : StagedRow where
  record := r
  AQI_Category := aqi_pm25_category r.pm2_5
  Pollution_Severity := compute_severity r
  Risk_Level := risk_classification (compute_severity r)
  hour := hourOf r.time

/-- `all_records` accumulated over the raw-file loop
(transform.py lines 52–75): the records of every (city, hourly) pair,
concatenated in file order. -/
def rawRecords (files : List (String × RawHourly)) : List Record :=
  (files.map (fun f => buildRecords f.1 f.2)).flatten

/-- The *successful* run of `transform_pipeline` (transform.py lines
51–94) from the point where the raw files are parsed: build the records of
every (city, hourly) pair, drop the rows whose seven pollutant cells are
all missing, and add the derived columns.  File discovery, the
filename-derived city name and the CSV write are I/O outside the
embedding.  This pure model is the staged table exactly when the run
completes; the runs the real program aborts (`TypeError` at lines 85–86
when a consumed pollutant column is entirely null, `KeyError` at line 82
on empty input) are modelled by `transform_pipeline_run` below, which
returns this list precisely when no error path triggers. -/
def transform_pipeline (files : List (String × RawHourly)) : List StagedRow :=
  (dropAllNull (rawRecords files)).map stage

/-- `riskTier` orders the three risk labels: `"Low Risk"` < `"Moderate Risk"`
< `"High Risk"`.  Any other string is given the bottom tier; the range
theorem shows `risk_classification` never produces one. -/
def riskTier (s : String) : ℕ :=
  if s = "High Risk" then 2 else if s = "Moderate Risk" then 1 else 0

/-- Raw hourly data of the spec's end-to-end scenario: two hours with
`pm2_5 = [40, 120]` and every other pollutant null. -/
def scenarioHourly : RawHourly where
  time := ["2025-01-01T00:00", "2025-01-01T01:00"]
  pm10 := some [none, none]
  pm2_5 := some [some 40, some 120]
  carbon_monoxide := some [none, none]
  nitrogen_dioxide := some [none, none]
  sulphur_dioxide := some [none, none]
  ozone := some [none, none]
  uv_index := some [none, none]

/-- The end-to-end scenario as one parsed raw file. -/
def scenarioFiles : List (String × RawHourly) := [("Delhi", scenarioHourly)]

/-- One raw hour in which all six severity-weighted pollutants are null and
only `uv_index` is present (so the row survives the `dropna`). -/
def c1Hourly : RawHourly where
  time := ["2025-01-01T05:00"]
  pm10 := some [none]
  pm2_5 := some [none]
  carbon_monoxide := some [none]
  nitrogen_dioxide := some [none]
  sulphur_dioxide := some [none]
  ozone := some [none]
  uv_index := some [some 1]

/-- The all-weighted-pollutants-null scenario as one parsed raw file. -/
def c1Files : List (String × RawHourly) := [("Delhi", c1Hourly)]

/-- Raw hourly data whose first hour has a null `pm2_5` next to a present
`pm10` (so the row is retained), while the second hour has a numeric
`pm2_5` (so the real DataFrame stores the column as float64 and the missing
cell is `NaN`, the case the `Option` model embeds). -/
def c2Hourly : RawHourly where
  time := ["2025-01-01T00:00", "2025-01-01T01:00"]
  pm10 := some [some 10, some 12]
  pm2_5 := some [none, some 40]
  carbon_monoxide := some [none, none]
  nitrogen_dioxide := some [none, none]
  sulphur_dioxide := some [none, none]
  ozone := some [none, none]
  uv_index := some [none, none]

/-- The null-`pm2_5` scenario as one parsed raw file. -/
def c2Files : List (String × RawHourly) := [("Delhi", c2Hourly)]

/-- The record of the first hour of `c2Hourly`: null `pm2_5`, present `pm10`. -/
def c2row : Record := mkRecord "Delhi" "2025-01-01T00:00" 0 c2Hourly

/-! ## Loader (`load.py`)

The loader's decision logic is the batch partition and the per-batch
try/except control flow of `load_to_supabase` (load.py lines 95–121).  The
Supabase client, CSV read and column rename are I/O; the insert call is an
external collaborator whose outcome per attempt is an oracle parameter. -/

/-- The Python slice `records[i:i+B]`. -/
def pySlice (records : List α) (i B : ℕ) : List α :=
  (records.drop i).take B

/-- `range(0, total, step)` for `step > 0`: the multiples of `step` strictly
below `total`, in increasing order — `⌈total/step⌉` of them (the lemma
`pyRange_sound` below checks this count against the membership
characterisation of Python's `range`). -/
def pyRange (total step : ℕ) : List ℕ :=
  (List.range ((total + step - 1) / step)).map (fun k => k * step)

/-- The batch partition of `load_to_supabase` (load.py lines 102–103):
`records[i:i + batch_size]` for `i in range(0, total, batch_size)`. -/
def loadBatches (records : List α) (batch_size : ℕ) : List (List α) :=
  (pyRange records.length batch_size).map (fun i => pySlice records i batch_size)

/-- Outcome of one `supabase.table(...).insert(batch).execute()` call. -/
inductive InsertOutcome where
  /-- The call returned a result whose `error` attribute is absent/falsy. -/
  | ok
  /-- The call returned a result with a truthy `error` attribute. -/
  | errorResult
  /-- The call raised an exception. -/
  | raises
  deriving Repr, DecidableEq

/-- Number of insert attempts one batch receives under the try/except of
`load_to_supabase` (load.py lines 105–119), given the outcome each attempt
would have:
* the first attempt raises → the `except` catches it, prints
  `"❌ Retry failed"` and the loop continues — no second attempt is made;
* the first attempt returns an error result → `sleep(3)` and a second
  attempt, whose exception (if any) the same `except` catches and whose
  result is otherwise not inspected (the code prints `"✅ Retry success"`
  unconditionally);
* the first attempt is ok → done after one attempt.
Every path falls through to the next loop iteration. -/
def batchAttempts (first _second : InsertOutcome) : ℕ :=
  match first with
  | .raises => 1
  | .ok => 1
  | .errorResult => 2

/-- The batch loop of `load_to_supabase` (load.py lines 102–119) as a trace:
each batch, in order, paired with the number of insert attempts it
received.  `outcomes n` gives the outcome the n-th batch's first and second
insert attempts would have.  No outcome combination removes a later batch
from the trace: every failure path logs and continues. -/
def load_to_supabase (records : List α) (batch_size : ℕ)
    (outcomes : ℕ → InsertOutcome × InsertOutcome) : List (List α × ℕ) :=
  (loadBatches records batch_size).enum.map
    (fun p => (p.2, batchAttempts (outcomes p.1).1 (outcomes p.1).2))

/-! ## Analyzer (`etl_analysis.py`)

`compute_kpis` selects the city with the highest per-city mean PM2.5 and
the city with the highest per-city mean severity via
`df.groupby("city")[col].mean().dropna()` followed by `.idxmax()`.
`groupby` sorts its keys ascending (Python string order: code-point
lexicographic), `.mean()` averages the non-null values of a group (`NaN`
for an all-null group, which `.dropna()` then removes), and `.idxmax()`
returns the index label of the *first* occurrence of the maximum. -/

/-- Code-point lexicographic `<=` on char lists: Python's string comparison,
the order in which `groupby` sorts its string keys. -/
def charListLe : List Char → List Char → Bool
  | [], _ => true
  | _ :: _, [] => false
  | a :: as, b :: bs =>
    if a.toNat < b.toNat then true
    else if b.toNat < a.toNat then false
    else charListLe as bs

/-- Python's `<=` on strings. -/
def strLe (a b : String) : Bool :=
  charListLe a.data b.data

/-- One row fetched back from the store, restricted to the columns
`compute_kpis` (etl_analysis.py lines 41–77) reads for the two argmax
KPIs: `city`, `pm2_5` and `severity_score` (cells nullable as always). -/
structure AnalysisRow where
  city : String
  pm2_5 : Option ℚ
  severity_score : Option ℚ
  deriving Repr, DecidableEq

/-- The group keys of `df.groupby("city")`: the distinct city names in
ascending order. -/
def citiesSorted (rows : List AnalysisRow) : List String :=
  List.insertionSort (fun a b => strLe a b = true) ((rows.map AnalysisRow.city).dedup)

/-- The pandas group mean of column `f` over city `c`'s rows: sum over
count of the non-null values, and `none` (the `NaN` that `.dropna()`
removes) when the group has no non-null value. -/
def groupMean (rows : List AnalysisRow) (f : AnalysisRow → Option ℚ)
    (c : String) : Option ℚ :=
  let vs := (rows.filter (fun r => r.city = c)).filterMap f
  if vs.isEmpty then none else some (vs.sum / vs.length)

/-- `df.groupby("city")[col].mean().dropna()`: the per-city means, keyed by
city in ascending order, with `NaN` means removed. -/
def meansByCity (rows : List AnalysisRow) (f : AnalysisRow → Option ℚ) :
    List (String × ℚ) :=
  (citiesSorted rows).filterMap
    (fun c => (groupMean rows f c).map (fun m => (c, m)))

/-- The scan of `Series.idxmax`: keep the current maximum, replacing it only
on a strictly greater value, so the first occurrence of the maximum wins. -/
def idxmaxGo (best : String × ℚ) : List (String × ℚ) → String × ℚ
  | [] => best
  | p :: rest => idxmaxGo (if best.2 < p.2 then p else best) rest

/-- `Series.idxmax()`: the index label of the first occurrence of the
maximum value; `none` on an empty series (the `metrics[...] = None` branch
of `compute_kpis`). -/
def idxmax : List (String × ℚ) → Option String
  | [] => none
  | p :: rest => some (idxmaxGo p rest).1

/-- `metrics["city_highest_avg_pm2_5"]` (etl_analysis.py lines 45–51). -/
def city_highest_avg_pm2_5 (rows : List AnalysisRow) : Option String :=
  idxmax (meansByCity rows AnalysisRow.pm2_5)

/-- `metrics["city_highest_severity"]` (etl_analysis.py lines 54–60). -/
def city_highest_severity (rows : List AnalysisRow) : Option String :=
  idxmax (meansByCity rows AnalysisRow.severity_score)

/-- Two cities with one row each, identical PM2.5 means and identical
severity means, listed with the alphabetically *later* city first. -/
def c8rows : List AnalysisRow :=
  [⟨"Mumbai", some 50, some 0⟩, ⟨"Delhi", some 50, some 0⟩]

/-- Raw hourly data exercising every guarded-indexing case of record
construction: absent arrays, empty arrays, and arrays shorter than the
probed index. -/
def c9Hourly : RawHourly where
  time := ["2025-01-01T00:00"]
  pm10 := none
  pm2_5 := some [some 12]
  carbon_monoxide := some []
  nitrogen_dioxide := some [none]
  sulphur_dioxide := none
  ozone := some [some 1, some 2]
  uv_index := some []

/-! ## Theorems -/

/-- Sanity check of the `range` embedding: for `step > 0`,
`pyRange total step` contains exactly the multiples of `step` below
`total`, which is the membership characterisation of Python's
`range(0, total, step)`. -/
theorem pyRange_sound (total step : ℕ) (hs : 0 < step) (i : ℕ) :
    i ∈ pyRange total step ↔ ∃ k, i = k * step ∧ i < total := by
  simp only [pyRange, List.mem_map, List.mem_range]
  constructor
  · rintro ⟨k, hk, rfl⟩
    refine ⟨k, rfl, ?_⟩
    have h1 : k + 1 ≤ (total + step - 1) / step := hk
    have h2 : (k + 1) * step ≤ total + step - 1 :=
      (Nat.le_div_iff_mul_le hs).1 h1
    have h3 : k * step + step = (k + 1) * step := by ring
    omega
  · rintro ⟨k, rfl, hk⟩
    refine ⟨k, ?_, rfl⟩
    have h2 : (k + 1) * step ≤ total + step - 1 := by
      have h3 : (k + 1) * step = k * step + step := by ring
      omega
    have := (Nat.le_div_iff_mul_le hs).2 h2
    omega

/-- Ceiling division reaches the numerator: `N ≤ ⌈N/B⌉ * B`. -/
theorem ceil_mul_ge (N B : ℕ) (hB : 0 < B) : N ≤ ((N + B - 1) / B) * B := by
  have hmod := Nat.div_add_mod (N + B - 1) B
  have hlt : (N + B - 1) % B < B := Nat.mod_lt _ hB
  rw [Nat.mul_comm]
  generalize (N + B - 1) % B = m at hmod hlt
  generalize B * ((N + B - 1) / B) = x at hmod ⊢
  omega

/-- Flattening the slices at offsets `i, i+B, ..., i+(c-1)·B` recovers
`records.drop i` once `c` slices reach past the end of the list. -/
theorem slices_flatten (records : List α) (B : ℕ) :
    ∀ c i, records.length ≤ i + c * B →
      ((List.range c).map (fun k => pySlice records (i + k * B) B)).flatten =
        records.drop i := by
  intro c
  induction c with
  | zero =>
    intro i hi
    simp only [Nat.zero_mul, Nat.add_zero] at hi
    simp [List.drop_eq_nil_of_le hi]
  | succ c ih =>
    intro i hi
    have hi' : records.length ≤ (i + B) + c * B := by
      have h : i + (c + 1) * B = (i + B) + c * B := by ring
      exact h ▸ hi
    rw [List.range_succ_eq_map]
    simp only [List.map_cons, List.map_map, List.flatten_cons]
    have hfun : ((List.range c).map
        ((fun k => pySlice records (i + k * B) B) ∘ Nat.succ)).flatten =
        records.drop (i + B) := by
      have hih := ih (i + B) hi'
      rw [← hih]
      congr 1
      apply List.map_congr_left
      intro k _
      simp only [Function.comp_apply, Nat.succ_eq_add_one]
      congr 1
      ring
    rw [hfun]
    have hdd : records.drop (i + B) = (records.drop i).drop B := by
      rw [List.drop_drop, Nat.add_comm]
    rw [hdd]
    simp only [Nat.zero_mul, Nat.add_zero, pySlice]
    exact List.take_append_drop B (records.drop i)

/-- Concatenating the loader's batches in insertion order recovers the
staged row sequence. -/
theorem loadBatches_flatten (records : List α) (B : ℕ) (hB : 0 < B) :
    (loadBatches records B).flatten = records := by
  have h1 := slices_flatten records B ((records.length + B - 1) / B) 0
    (by simpa using ceil_mul_ge records.length B hB)
  simp only [Nat.zero_add, List.drop_zero] at h1
  simpa [loadBatches, pyRange, List.map_map, Function.comp] using h1

/-- C7: with batch size `B > 0` the loop
`for i in range(0, total, batch_size): batch = records[i:i + batch_size]`
produces exactly `⌈N/B⌉` batches (`(N + B - 1) / B` in ℕ), each of at most
`B` rows, whose concatenation in insertion order is exactly the input row
sequence — every row appears exactly once, in original order. -/
theorem c7_batch_partition {α : Type} (records : List α) (B : ℕ) (hB : 0 < B) :
    (loadBatches records B).length = (records.length + B - 1) / B ∧
    (∀ b ∈ loadBatches records B, b.length ≤ B) ∧
    (loadBatches records B).flatten = records := by
  refine ⟨by simp [loadBatches, pyRange], ?_, loadBatches_flatten records B hB⟩
  intro b hb
  obtain ⟨i, _, rfl⟩ := List.mem_map.1 hb
  simp only [pySlice, List.length_take]
  exact min_le_left _ _

/-- C7 witness: five rows with batch size 2 give `⌈5/2⌉ = 3` batches,
each of at most 2 rows, flattening back to the input. -/
theorem c7_batch_partition_witness :
    (loadBatches [10, 20, 30, 40, 50] 2).length = (5 + 2 - 1) / 2 ∧
    (∀ b ∈ loadBatches [10, 20, 30, 40, 50] 2, b.length ≤ 2) ∧
    (loadBatches [10, 20, 30, 40, 50] 2).flatten = [10, 20, 30, 40, 50] :=
  c7_batch_partition [10, 20, 30, 40, 50] 2 (by decide)

/-- C4: refuted at the failing input.  A batch whose *first* insert attempt
raises an exception receives exactly one attempt — the `except` block
catches the exception, prints `"❌ Retry failed"` (although no retry was
made) and moves on — so the claimed "exactly one retry for every failed
first attempt" is false; only an error *result* triggers the retry.  The
concrete trace also shows the continuation guarantee: with batch size 1 and
a first batch whose first attempt raises, the second batch is still
attempted. -/
theorem c4_first_attempt_exception_gets_no_retry :
    batchAttempts .raises .ok = 1 ∧
    batchAttempts .raises .raises = 1 ∧
    batchAttempts .errorResult .raises = 2 ∧
    load_to_supabase [10, 20] 1
      (fun i => if i = 0 then (.raises, .ok) else (.ok, .ok)) =
      [([10], 1), ([20], 1)] := by
  decide

/-- C1: refuted at the failing input.  For the staged row built from
`c1Files` — all six severity-weighted pollutants null, `uv_index` present,
so the row is retained — the code's severity is `NaN` (`none`), *not* the
claimed `0`: `row.get(key, 0)` returns the present-but-null cell, never the
`0` default, and `NaN` propagates through the weighted sum.  The derived
risk is still `"Low Risk"`, but only because `NaN > 400` and `NaN > 200`
are both false. -/
theorem c1_allNull_severity_is_nan_not_zero :
    (transform_pipeline c1Files).map StagedRow.Pollution_Severity = [none] ∧
    (none : Option ℚ) ≠ some 0 ∧
    (transform_pipeline c1Files).map StagedRow.Risk_Level = ["Low Risk"] ∧
    (transform_pipeline c1Files).length = 1 := by
  decide

/-- C2 counterexample: the claim "every staged row with a null `pm2_5` gets
category `"Good"`" is false at the concrete input `c2Files`, whose first
retained row has a null `pm2_5` and category `"Hazardous"`. -/
theorem c2_null_pm25_not_good :
    ¬ (∀ s ∈ transform_pipeline c2Files,
        s.record.pm2_5 = none → s.AQI_Category = "Good") := by
  decide

/-- C2 amended: a null `pm2_5` cell fails every `<=` test of
`aqi_pm25_category` (NaN comparisons are false), so every staged row whose
`pm2_5` is null gets category `"Hazardous"`, not `"Good"` =
`aqi_pm25_category (some 0)`. -/
theorem c2_null_pm25_hazardous (files : List (String × RawHourly))
    (s : StagedRow) (h1 : s ∈ transform_pipeline files)
    (h2 : s.record.pm2_5 = none) : s.AQI_Category = "Hazardous" := by
  obtain ⟨r, _, rfl⟩ := List.mem_map.1 h1
  simp only [stage] at h2 ⊢
  simp [h2, aqi_pm25_category, nanLe]

/-- C2 witness: the amended theorem applied to the concrete staged row of
`c2Files` whose `pm2_5` is null. -/
theorem c2_null_pm25_hazardous_witness : (stage c2row).AQI_Category = "Hazardous" :=
  c2_null_pm25_hazardous c2Files (stage c2row) (by decide) (by decide)

/-- C3 counterexample: on the spec's end-to-end scenario (hours
[00:00, 01:00], `pm2_5 = [40, 120]`, every other pollutant null) the
transform does *not* produce categories `["Good", "Moderate"]`, severities
`[200, 600]` and risks `["Low Risk", "High Risk"]`. -/
theorem c3_scenario_counterexample :
    ¬ ((transform_pipeline scenarioFiles).map StagedRow.AQI_Category =
          ["Good", "Moderate"] ∧
        (transform_pipeline scenarioFiles).map StagedRow.Pollution_Severity =
          [some 200, some 600] ∧
        (transform_pipeline scenarioFiles).map StagedRow.Risk_Level =
          ["Low Risk", "High Risk"] ∧
        (transform_pipeline scenarioFiles).map StagedRow.hour = [0, 1]) := by
  decide

/-- C3 amended: the scenario yields exactly two rows with categories
`["Good", "Unhealthy"]` (120 falls in the `<= 200` bracket of
`aqi_pm25_category`), null (`NaN`) severities (the null pollutant cells
propagate through the weighted sum), risks `["Low Risk", "Low Risk"]`
(`NaN` fails both `>` thresholds), and hours `[0, 1]`. -/
theorem c3_scenario_actual :
    (transform_pipeline scenarioFiles).length = 2 ∧
    (transform_pipeline scenarioFiles).map StagedRow.AQI_Category =
      ["Good", "Unhealthy"] ∧
    (transform_pipeline scenarioFiles).map StagedRow.Pollution_Severity =
      [none, none] ∧
    (transform_pipeline scenarioFiles).map StagedRow.Risk_Level =
      ["Low Risk", "Low Risk"] ∧
    (transform_pipeline scenarioFiles).map StagedRow.hour = [0, 1] := by
  decide

/-- C6: the risk thresholds are strict: severity 400 is `"Moderate Risk"`,
401 is `"High Risk"`, 200 is `"Low Risk"`, 201 is `"Moderate Risk"`. -/
theorem c6_risk_boundaries :
    risk_classification (some 400) = "Moderate Risk" ∧
    risk_classification (some 401) = "High Risk" ∧
    risk_classification (some 200) = "Low Risk" ∧
    risk_classification (some 201) = "Moderate Risk" := by
  decide

/-- C10: the risk classification is monotone in (numeric) severity under the
tier order Low < Moderate < High, and every output — including the output on
a `NaN` severity — is one of the three labels. -/
theorem c10_risk_monotone (s1 s2 : ℚ) (s : Option ℚ) (h : s1 ≤ s2) :
    riskTier (risk_classification (some s1)) ≤
      riskTier (risk_classification (some s2)) ∧
    (risk_classification s = "Low Risk" ∨
      risk_classification s = "Moderate Risk" ∨
      risk_classification s = "High Risk") := by
  constructor
  · simp only [risk_classification, nanGt, decide_eq_true_eq]
    split_ifs with h1 h2 h3 h4 <;> simp [riskTier] <;> linarith
  · cases s with
    | none => simp [risk_classification, nanGt]
    | some a =>
      simp only [risk_classification, nanGt]
      split_ifs <;> simp

/-- C10 witness: monotonicity at severities 100 ≤ 500 and the label range at
a `NaN` severity. -/
theorem c10_risk_monotone_witness :
    riskTier (risk_classification (some 100)) ≤
      riskTier (risk_classification (some 500)) ∧
    (risk_classification none = "Low Risk" ∨
      risk_classification none = "Moderate Risk" ∨
      risk_classification none = "High Risk") :=
  c10_risk_monotone 100 500 none (by norm_num)

/-- `charListLe` is reflexive. -/
theorem charListLe_refl : ∀ as : List Char, charListLe as as = true
  | [] => rfl
  | a :: as => by
    simp only [charListLe, Nat.lt_irrefl, if_false]
    exact charListLe_refl as

/-- `charListLe` is total. -/
theorem charListLe_total : ∀ as bs : List Char,
    charListLe as bs = true ∨ charListLe bs as = true := by
  intro as
  induction as with
  | nil => intro bs; left; rfl
  | cons a as ih =>
    intro bs
    cases bs with
    | nil => right; rfl
    | cons b bs =>
      simp only [charListLe]
      rcases Nat.lt_trichotomy a.toNat b.toNat with h | h | h
      · left; simp [h]
      · simp only [h, Nat.lt_irrefl, if_false]
        exact ih bs
      · right; simp [h]

/-- Unfolding of `charListLe` on two cons cells: strictly smaller head, or
equal heads and `<=` tails. -/
theorem charListLe_cons_iff (a b : Char) (as bs : List Char) :
    charListLe (a :: as) (b :: bs) = true ↔
      (a.toNat < b.toNat ∨ (a.toNat = b.toNat ∧ charListLe as bs = true)) := by
  simp only [charListLe]
  by_cases h1 : a.toNat < b.toNat
  · simp [h1]
  · by_cases h2 : b.toNat < a.toNat
    · simp only [if_neg h1, if_pos h2]
      constructor
      · intro h; exact absurd h (by simp)
      · rintro (h | ⟨h, _⟩) <;> omega
    · simp only [if_neg h1, if_neg h2]
      constructor
      · intro h; exact Or.inr ⟨by omega, h⟩
      · rintro (h | ⟨_, h⟩)
        · omega
        · exact h

/-- `charListLe` is transitive. -/
theorem charListLe_trans : ∀ as bs cs : List Char,
    charListLe as bs = true → charListLe bs cs = true →
      charListLe as cs = true := by
  intro as
  induction as with
  | nil => intro bs cs _ _; rfl
  | cons a as ih =>
    intro bs cs h1 h2
    cases bs with
    | nil => simp [charListLe] at h1
    | cons b bs =>
      cases cs with
      | nil => simp [charListLe] at h2
      | cons c cs =>
        rw [charListLe_cons_iff] at h1 h2 ⊢
        rcases h1 with h1 | ⟨e1, r1⟩ <;> rcases h2 with h2 | ⟨e2, r2⟩
        · left; omega
        · left; omega
        · left; omega
        · right; exact ⟨by omega, ih bs cs r1 r2⟩

instance : IsTotal String (fun a b => strLe a b = true) :=
  ⟨fun a b => charListLe_total a.data b.data⟩

instance : IsTrans String (fun a b => strLe a b = true) :=
  ⟨fun a b c => charListLe_trans a.data b.data c.data⟩

/-- The idxmax scan returns one of the scanned entries. -/
theorem idxmaxGo_mem (l : List (String × ℚ)) :
    ∀ best, idxmaxGo best l ∈ best :: l := by
  induction l with
  | nil => intro best; simp [idxmaxGo]
  | cons p rest ih =>
    intro best
    simp only [idxmaxGo]
    have h := ih (if best.2 < p.2 then p else best)
    by_cases hb : best.2 < p.2 <;>
      simp only [if_pos, if_neg, hb, ite_true, ite_false, List.mem_cons] at h ⊢ <;>
      tauto

/-- The idxmax scan's value bounds every scanned value. -/
theorem idxmaxGo_ge (l : List (String × ℚ)) :
    ∀ best, ∀ q ∈ best :: l, q.2 ≤ (idxmaxGo best l).2 := by
  induction l with
  | nil =>
    intro best q hq
    rw [List.mem_singleton] at hq
    subst hq
    exact le_refl _
  | cons p rest ih =>
    intro best q hq
    simp only [idxmaxGo]
    by_cases hb : best.2 < p.2
    · simp only [if_pos hb]
      rcases List.mem_cons.1 hq with rfl | hq'
      · exact le_trans (le_of_lt hb) (ih p p (List.mem_cons_self p rest))
      · exact ih p q hq'
    · simp only [if_neg hb]
      rcases List.mem_cons.1 hq with rfl | hq'
      · exact ih q q (List.mem_cons_self q rest)
      · rcases List.mem_cons.1 hq' with rfl | hq''
        · exact le_trans (le_of_not_lt hb) (ih best best (List.mem_cons_self best rest))
        · exact ih best q (List.mem_cons_of_mem best hq'')

/-- The idxmax scan either keeps its seed or returns a strictly greater
later entry (so an entry tied with the seed never displaces it). -/
theorem idxmaxGo_cases (l : List (String × ℚ)) :
    ∀ best, idxmaxGo best l = best ∨
      (idxmaxGo best l ∈ l ∧ best.2 < (idxmaxGo best l).2) := by
  induction l with
  | nil => intro best; left; rfl
  | cons p rest ih =>
    intro best
    simp only [idxmaxGo]
    by_cases hb : best.2 < p.2
    · simp only [if_pos hb]
      rcases ih p with h | ⟨hmem, hlt⟩
      · right
        constructor
        · rw [h]; exact List.mem_cons_self p rest
        · rw [h]; exact hb
      · right
        exact ⟨List.mem_cons_of_mem p hmem, lt_trans hb hlt⟩
    · simp only [if_neg hb]
      rcases ih best with h | ⟨hmem, hlt⟩
      · left; exact h
      · right; exact ⟨List.mem_cons_of_mem p hmem, hlt⟩

/-- On a list whose labels ascend, the idxmax scan's result label is `<=`
the label of every entry tied with (or above) the maximum: the scan keeps
the first maximum, and every tied entry sits at or after it. -/
theorem idxmaxGo_first (l : List (String × ℚ)) :
    ∀ best, List.Pairwise (fun a b : String × ℚ => strLe a.1 b.1 = true) (best :: l) →
      ∀ q ∈ best :: l, (idxmaxGo best l).2 ≤ q.2 →
        strLe (idxmaxGo best l).1 q.1 = true := by
  induction l with
  | nil =>
    intro best _ q hq _
    rw [List.mem_singleton] at hq
    subst hq
    exact charListLe_refl _
  | cons p rest ih =>
    intro best hp q hq hle
    simp only [idxmaxGo] at hle ⊢
    by_cases hb : best.2 < p.2
    · rw [if_pos hb] at hle ⊢
      have hp' : List.Pairwise (fun a b : String × ℚ => strLe a.1 b.1 = true) (p :: rest) :=
        List.Pairwise.sublist (List.sublist_cons_self best (p :: rest)) hp
      rcases List.mem_cons.1 hq with rfl | hq'
      · have h1 : p.2 ≤ (idxmaxGo p rest).2 :=
          idxmaxGo_ge rest p p (List.mem_cons_self p rest)
        exact absurd (lt_of_lt_of_le hb (le_trans h1 hle)) (lt_irrefl _)
      · exact ih p hp' q hq' hle
    · rw [if_neg hb] at hle ⊢
      have hp' : List.Pairwise (fun a b : String × ℚ => strLe a.1 b.1 = true) (best :: rest) :=
        List.Pairwise.sublist
          (List.Sublist.cons₂ best (List.sublist_cons_self p rest)) hp
      rcases List.mem_cons.1 hq with rfl | hq'
      · exact ih q hp' q (List.mem_cons_self q rest) hle
      · rcases List.mem_cons.1 hq' with rfl | hq''
        · rcases idxmaxGo_cases rest best with hcase | ⟨_, hlt⟩
          · rw [hcase]
            exact (List.pairwise_cons.1 hp).1 q (List.mem_cons_self q rest)
          · have : (idxmaxGo best rest).2 ≤ best.2 :=
              le_trans hle (le_of_not_lt hb)
            exact absurd (lt_of_lt_of_le hlt this) (lt_irrefl _)
        · exact ih best hp' q (List.mem_cons_of_mem best hq'') hle

/-- `idxmax` on a series with ascending labels returns a label achieving
the maximum value that is alphabetically `<=` every label tied with it. -/
theorem idxmax_spec (l : List (String × ℚ))
    (hp : List.Pairwise (fun a b : String × ℚ => strLe a.1 b.1 = true) l)
    (c : String) (h : idxmax l = some c) :
    ∃ m, (c, m) ∈ l ∧ ∀ q ∈ l, q.2 ≤ m ∧ (q.2 = m → strLe c q.1 = true) := by
  cases l with
  | nil => simp [idxmax] at h
  | cons p rest =>
    simp only [idxmax, Option.some.injEq] at h
    subst h
    refine ⟨(idxmaxGo p rest).2, ?_, ?_⟩
    · have hmem := idxmaxGo_mem rest p
      simpa using hmem
    · intro q hq
      exact ⟨idxmaxGo_ge rest p q hq,
        fun hq2 => idxmaxGo_first rest p hp q hq hq2.ge⟩

/-- The per-city mean series has ascending city labels: `groupby` sorts its
keys, and `.dropna()` preserves the order. -/
theorem meansByCity_pairwise (rows : List AnalysisRow) (f : AnalysisRow → Option ℚ) :
    List.Pairwise (fun a b : String × ℚ => strLe a.1 b.1 = true) (meansByCity rows f) := by
  have hs : List.Pairwise (fun a b : String => strLe a b = true) (citiesSorted rows) :=
    List.sorted_insertionSort _ _
  refine List.Pairwise.filterMap _ ?_ hs
  intro a a' hr b hb b' hb'
  simp only [Option.mem_def, Option.map_eq_some'] at hb hb'
  obtain ⟨m, _, rfl⟩ := hb
  obtain ⟨m', _, rfl⟩ := hb'
  exact hr

/-- C8: whenever `compute_kpis` selects a city for the highest mean PM2.5
(resp. highest mean severity), that city achieves the maximum per-city mean
and is `<=`, in Python's ascending string order (`strLe`), every city tied
with the maximum — `groupby` sorts the keys ascending and `idxmax` takes
the first occurrence of the maximum. -/
theorem c8_argmax_tie_alphabetical (rows : List AnalysisRow) (c1 c2 : String)
    (h1 : city_highest_avg_pm2_5 rows = some c1)
    (h2 : city_highest_severity rows = some c2) :
    (∃ m, (c1, m) ∈ meansByCity rows AnalysisRow.pm2_5 ∧
      ∀ q ∈ meansByCity rows AnalysisRow.pm2_5,
        q.2 ≤ m ∧ (q.2 = m → strLe c1 q.1 = true)) ∧
    (∃ m, (c2, m) ∈ meansByCity rows AnalysisRow.severity_score ∧
      ∀ q ∈ meansByCity rows AnalysisRow.severity_score,
        q.2 ≤ m ∧ (q.2 = m → strLe c2 q.1 = true)) :=
  ⟨idxmax_spec _ (meansByCity_pairwise rows _) c1 h1,
    idxmax_spec _ (meansByCity_pairwise rows _) c2 h2⟩

/-- C8 witness: on `c8rows` — cities "Mumbai" and "Delhi", one row each,
tied PM2.5 means (50) and tied severity means (0) — the selected city is
"Delhi", the alphabetically first of the tie, and the theorem's conclusion
holds at it. -/
theorem c8_argmax_tie_alphabetical_witness :
    (∃ m, ("Delhi", m) ∈ meansByCity c8rows AnalysisRow.pm2_5 ∧
      ∀ q ∈ meansByCity c8rows AnalysisRow.pm2_5,
        q.2 ≤ m ∧ (q.2 = m → strLe "Delhi" q.1 = true)) ∧
    (∃ m, ("Delhi", m) ∈ meansByCity c8rows AnalysisRow.severity_score ∧
      ∀ q ∈ meansByCity c8rows AnalysisRow.severity_score,
        q.2 ≤ m ∧ (q.2 = m → strLe "Delhi" q.1 = true)) :=
  c8_argmax_tie_alphabetical c8rows "Delhi" "Delhi"
    (by
      have h1 : citiesSorted c8rows = ["Delhi", "Mumbai"] := by decide
      have h : meansByCity c8rows AnalysisRow.pm2_5 =
          [("Delhi", 50), ("Mumbai", 50)] := by
        simp only [meansByCity, h1]
        norm_num [groupMean, c8rows, List.filter, List.filterMap]
      rw [city_highest_avg_pm2_5, h]
      decide)
    (by
      have h1 : citiesSorted c8rows = ["Delhi", "Mumbai"] := by decide
      have h : meansByCity c8rows AnalysisRow.severity_score =
          [("Delhi", 0), ("Mumbai", 0)] := by
        simp only [meansByCity, h1]
        norm_num [groupMean, c8rows, List.filter, List.filterMap]
      rw [city_highest_severity, h]
      decide)

/-- The guarded lookup yields a null whenever the array (after the
`.get(pollutant, [])` default) is absent or too short. -/
theorem idxVal_eq_none (vals : Option (List (Option ℚ))) (i : ℕ)
    (h : vals = none ∨ (getArr vals).length ≤ i) :
    idxVal (getArr vals) i = none := by
  rcases h with rfl | h
  · simp [getArr, idxVal]
  · rw [idxVal, dif_neg (by omega)]

/-- C9: record construction is total — the embedded lookup
`values[i] if i < len(values) else None` is a total function by
construction — and whenever one of the seven pollutant arrays is absent
(`hourly_data.get` defaults it to `[]`) or has fewer than `i + 1` entries,
the record built for timestamp index `i` holds a null for that pollutant;
no out-of-bounds access exists to raise. -/
theorem c9_guarded_indexing (city t : String) (i : ℕ) (h : RawHourly) :
    ((h.pm10 = none ∨ (getArr h.pm10).length ≤ i) →
      (mkRecord city t i h).pm10 = none) ∧
    ((h.pm2_5 = none ∨ (getArr h.pm2_5).length ≤ i) →
      (mkRecord city t i h).pm2_5 = none) ∧
    ((h.carbon_monoxide = none ∨ (getArr h.carbon_monoxide).length ≤ i) →
      (mkRecord city t i h).carbon_monoxide = none) ∧
    ((h.nitrogen_dioxide = none ∨ (getArr h.nitrogen_dioxide).length ≤ i) →
      (mkRecord city t i h).nitrogen_dioxide = none) ∧
    ((h.sulphur_dioxide = none ∨ (getArr h.sulphur_dioxide).length ≤ i) →
      (mkRecord city t i h).sulphur_dioxide = none) ∧
    ((h.ozone = none ∨ (getArr h.ozone).length ≤ i) →
      (mkRecord city t i h).ozone = none) ∧
    ((h.uv_index = none ∨ (getArr h.uv_index).length ≤ i) →
      (mkRecord city t i h).uv_index = none) :=
  ⟨fun hh => idxVal_eq_none _ _ hh, fun hh => idxVal_eq_none _ _ hh,
    fun hh => idxVal_eq_none _ _ hh, fun hh => idxVal_eq_none _ _ hh,
    fun hh => idxVal_eq_none _ _ hh, fun hh => idxVal_eq_none _ _ hh,
    fun hh => idxVal_eq_none _ _ hh⟩

/-- C9 witness: probing index 3 of `c9Hourly` — absent arrays (`pm10`,
`sulphur_dioxide`), empty arrays, and arrays of lengths 1 and 2 — yields a
record with nulls in all seven pollutant cells, with no error. -/
theorem c9_guarded_indexing_witness :
    (mkRecord "Agra" "2025-01-01T00:00" 3 c9Hourly).pm10 = none ∧
    (mkRecord "Agra" "2025-01-01T00:00" 3 c9Hourly).pm2_5 = none ∧
    (mkRecord "Agra" "2025-01-01T00:00" 3 c9Hourly).carbon_monoxide = none ∧
    (mkRecord "Agra" "2025-01-01T00:00" 3 c9Hourly).nitrogen_dioxide = none ∧
    (mkRecord "Agra" "2025-01-01T00:00" 3 c9Hourly).sulphur_dioxide = none ∧
    (mkRecord "Agra" "2025-01-01T00:00" 3 c9Hourly).ozone = none ∧
    (mkRecord "Agra" "2025-01-01T00:00" 3 c9Hourly).uv_index = none := by
  have T := c9_guarded_indexing "Agra" "2025-01-01T00:00" 3 c9Hourly
  exact ⟨T.1 (Or.inl rfl), T.2.1 (Or.inr (by decide)),
    T.2.2.1 (Or.inr (by decide)), T.2.2.2.1 (Or.inr (by decide)),
    T.2.2.2.2.1 (Or.inl rfl), T.2.2.2.2.2.1 (Or.inr (by decide)),
    T.2.2.2.2.2.2 (Or.inr (by decide))⟩

end AirQuality
